import Mathlib

/-
Verification of Tab5GitHubStatus (src/Tab5GitHubStatus.ino).

Shallow embedding of the status-polling core:
  * `fetchCycle`       — one cycle of the background fetch task `fetchTaskFunc`
                         (component feed, incidents feed, severity classification);
  * `Channel`/`publish`/`tryTake`
                       — the single-slot mailbox made of `fetchResult` +
                         `newDataReady` guarded by `fetchMutex`;
  * `applyFetchResults`— the foreground consumer;
  * `loopIter`         — one iteration of `loop()` (touch, data, idle, animation);
  * `respawnStep`/`advanceStep`/`fadeColor`/`cellStep`
                       — the per-column and per-cell steps of `matrixDrawFrame`.

Modelling conventions:
  * C strings are Lean `String`s; `strncpy(dst, src, n)` with a forced
    terminator keeps the first `n` characters (`truncN`);
  * `millis()` timestamps are monotone `Nat`s (no 32-bit wrap in scope);
  * each call `random(lo, hi)` consumes one arbitrary draw `r : Nat` and
    yields `lo + r % (hi - lo)`, exactly the Arduino range `[lo, hi)`;
  * the bounded mutex waits are modelled as succeeding: the claims under
    study concern the values moved through the slot, not lock contention.
-/

namespace Tab5

/-- One entry of the parsed components feed: the `(name, status,
only_show_if_degraded)` triple read from the JSON array. -/
structure RawComponent where
  name : String
  status : String
  hidden : Bool
deriving DecidableEq

/-- `ComponentResult` of the source: `char name[48]; char status[32];`. -/
structure ComponentResult where
  name : String
  status : String
deriving DecidableEq

/-- The memset-zero `ComponentResult` (empty C strings). -/
def defaultComp : ComponentResult := ⟨"", ""⟩

/-- `FetchResult` of the source: the snapshot produced by one poll cycle. -/
structure FetchResult where
  valid : Bool
  statusChanged : Bool
  allOperational : Bool
  worstSeverity : Nat
  hasIncidents : Bool
  componentCount : Nat
  components : List ComponentResult
  statusBarText : String
deriving DecidableEq

/-- `strncpy(dst, src, n)` with a forced terminator: keep the first `n`
characters of `src`. -/
def truncN (n : Nat) (s : String) : String := ⟨s.data.take n⟩

/-- `strncmp(name, "Visit", 5) == 0`: the first five characters of the name
are `Visit` (a shorter name compares unequal through its terminator). -/
def startsWithVisit (s : String) : Bool :=
  s.data.take 5 == ['V', 'i', 's', 'i', 't']

/-- An entry survives the feed filter: not hidden-unless-degraded and not a
`Visit…` utility entry. -/
def keepComp (c : RawComponent) : Bool := !c.hidden && !startsWithVisit c.name

/-- The `memset(&res, 0, ...)` result with the explicit initial assignments
of `fetchTaskFunc`: invalid, unchanged, all-operational, severity 0. -/
def initResult : FetchResult :=
  { valid := false
    statusChanged := false
    allOperational := true
    worstSeverity := 0
    hasIncidents := false
    componentCount := 0
    components := []
    statusBarText := "" }

/-- The two `strncpy` calls of the fetch loop: append the kept component
(name truncated to 47 characters, status to 31) to the result. -/
def storeComp (c : RawComponent) (res : FetchResult) : FetchResult :=
  { res with
    components := res.components ++ [⟨truncN 47 c.name, truncN 31 c.status⟩] }

/-- The change check of the fetch loop: compare the raw status against
`prevStatus[idx]` (read-only) and set the flag on a difference. -/
def noteChange (prev : List String) (idx : Nat) (c : RawComponent)
    (res : FetchResult) : FetchResult :=
  if prev.getD idx "" ≠ c.status then { res with statusChanged := true } else res

/-- The severity classification of the fetch loop (lines 1053-1062):
major_outage forces severity 2; degraded_performance or partial_outage
raises it to at least 1; any other non-operational status only clears
`allOperational`. -/
def classifyStatus (c : RawComponent) (res : FetchResult) : FetchResult :=
  if c.status = "major_outage" then
    { res with allOperational := false, worstSeverity := 2 }
  else if c.status = "degraded_performance" ∨ c.status = "partial_outage" then
    { res with allOperational := false
               worstSeverity := if res.worstSeverity < 1 then 1
                                else res.worstSeverity }
  else if c.status ≠ "operational" then { res with allOperational := false }
  else res

/-- The component loop of `fetchTaskFunc` (lines 1035-1065): walks the feed,
breaks once ten components are kept, skips hidden and `Visit…` entries and,
for each kept entry, stores it, flags a change against `prevStatus` at the
running index, and accumulates severity.  Returns the updated result
together with the final index (the component count). -/
def fetchGo (prev : List String) :
    List RawComponent → Nat → FetchResult → FetchResult × Nat
  | [], idx, res => (res, idx)
  | c :: rest, idx, res =>
    if 10 ≤ idx then (res, idx)
    else if c.hidden then fetchGo prev rest idx res
    else if startsWithVisit c.name then fetchGo prev rest idx res
    else
      fetchGo prev rest (idx + 1)
        (classifyStatus c (noteChange prev idx c (storeComp c res)))

/-- The components-feed section of `fetchTaskFunc`: on HTTP 200 and a parsed
body run the component loop and mark the result valid with an `Updated…`
status line; on a decode failure or a non-200 code leave the zeroed result
with the error text. `timeStr` is `some hms` when `getLocalTime` succeeds. -/
def fetchComponentsPhase (prev : List String) (code : Int)
    (parsed : Option (List RawComponent)) (timeStr : Option String) : FetchResult :=
  if code = 200 then
    match parsed with
    | some raws =>
      let p := fetchGo prev raws 0 initResult
      { p.1 with
        componentCount := p.2
        valid := true
        statusBarText :=
          match timeStr with
          | some t => "Updated: " ++ t
          | none => "Updated" }
    | none => { initResult with statusBarText := "JSON parse error" }
  else { initResult with statusBarText := "HTTP error: " ++ toString code }

/-- The incidents-feed section of `fetchTaskFunc`: only an HTTP 200 with a
parsed body updates `hasIncidents` (to `size > 0`); every failure leaves it
untouched. -/
def fetchIncidentsPhase (code : Int) (parsed : Option Nat)
    (res : FetchResult) : FetchResult :=
  if code = 200 then
    match parsed with
    | some n => { res with hasIncidents := decide (0 < n) }
    | none => res
  else res

/-- One full build of a `FetchResult` by the background task when WiFi is up:
components feed, incidents feed, then the incident severity bump
(`if (res.hasIncidents && res.worstSeverity < 1) res.worstSeverity = 1`). -/
def fetchCycle (prev : List String) (cCode : Int)
    (cParsed : Option (List RawComponent)) (iCode : Int) (iParsed : Option Nat)
    (timeStr : Option String) : FetchResult :=
  let r1 := fetchComponentsPhase prev cCode cParsed timeStr
  let r2 := fetchIncidentsPhase iCode iParsed r1
  if r2.hasIncidents && r2.worstSeverity < 1 then { r2 with worstSeverity := 1 }
  else r2

/-- The shared slot: `fetchResult` plus the `newDataReady` flag. -/
structure Channel where
  slot : FetchResult
  ready : Bool
deriving DecidableEq

/-- Publishing under the mutex (lines 1113-1118): overwrite the slot and set
the flag. -/
def publish (r : FetchResult) (_ch : Channel) : Channel := ⟨r, true⟩

/-- The WiFi-down publish (lines 997-1004): mutates the shared slot in place,
overwriting only `valid` and `statusBarText`, then sets the flag. -/
def wifiDownPublish (ch : Channel) : Channel :=
  ⟨{ ch.slot with valid := false, statusBarText := "WiFi disconnected" }, true⟩

/-- The consumer's copy-out under the mutex (lines 1125-1132): if the flag is
set, copy the slot and clear the flag; otherwise nothing. -/
def tryTake (ch : Channel) : Option FetchResult × Channel :=
  if ch.ready then (some ch.slot, ⟨ch.slot, false⟩) else (none, ch)

/-- One iteration of the background task body: publish a WiFi error when the
link is down, otherwise build and publish a fresh result. -/
def taskCycle (wifiUp : Bool) (prev : List String) (cCode : Int)
    (cParsed : Option (List RawComponent)) (iCode : Int) (iParsed : Option Nat)
    (timeStr : Option String) (ch : Channel) : Channel :=
  if wifiUp then publish (fetchCycle prev cCode cParsed iCode iParsed timeStr) ch
  else wifiDownPublish ch

/-- The foreground state touched by the consumer: the free-floating globals
of the sketch plus the previous-status table and the two timestamps. -/
structure AppState where
  screensaverActive : Bool
  allOperational : Bool
  hasUnresolvedIncidents : Bool
  matrixSeverity : Nat
  prevStatus : List String
  cachedStatusText : String
  lastTouchTime : Nat
  lastFrameTime : Nat
deriving DecidableEq

/-- `matrixStopScreensaver` as it acts on the modelled state: clear the flag
and reset the idle reference (`lastTouchTime = millis()`); the sprite and
redraw side effects live outside the model. -/
def matrixStopScreensaver (now : Nat) (st : AppState) : AppState :=
  { st with screensaverActive := false, lastTouchTime := now }

/-- `matrixStartScreensaver` on the modelled state: set the flag and reset
the frame timer. -/
def matrixStartScreensaver (now : Nat) (st : AppState) : AppState :=
  { st with screensaverActive := true, lastFrameTime := now }

/-- The change-detection loop of `applyFetchResults` (lines 1148-1155):
`for i in [0, count)`, compare `prevStatus[i]` with the result's status and,
on a difference, set the flag and overwrite the table entry. -/
def diffGo (comps : List ComponentResult) :
    Nat → Nat → List String → Bool → List String × Bool
  | 0, _, prev, changed => (prev, changed)
  | n + 1, i, prev, changed =>
    let s := (comps.getD i defaultComp).status
    if prev.getD i "" ≠ s then
      diffGo comps n (i + 1) (prev.set i (truncN 31 s)) true
    else
      diffGo comps n (i + 1) prev changed

/-- The whole diff pass: `count` iterations starting at index 0 with the
flag initially clear. -/
def diffLoop (prev : List String) (comps : List ComponentResult)
    (count : Nat) : List String × Bool :=
  diffGo comps count 0 prev false

/-- What one call of `applyFetchResults` produces: the new foreground state,
how many times `matrixStopScreensaver` ran, and the local `statusChanged`
flag it computed. -/
structure ApplyOutcome where
  state : AppState
  stops : Nat
  changed : Bool
deriving DecidableEq

/-- `applyFetchResults` (lines 1125-1188) after a successful copy-out: cache
the status text; bail out on an invalid result; otherwise diff against
`prevStatus`, note an incident-flag flip, install the new globals, and stop
the screensaver when a status or incident change happened under it. -/
def applyFetchResults (now : Nat) (st : AppState) (res : FetchResult) :
    ApplyOutcome :=
  let st1 := { st with cachedStatusText := truncN 47 res.statusBarText }
  if res.valid then
    let pc := diffLoop st1.prevStatus res.components res.componentCount
    let incidentChanged := st1.hasUnresolvedIncidents != res.hasIncidents
    let st2 := { st1 with
      prevStatus := pc.1
      allOperational := res.allOperational
      hasUnresolvedIncidents := res.hasIncidents
      matrixSeverity := res.worstSeverity }
    if (pc.2 || incidentChanged) && st2.screensaverActive then
      ⟨matrixStopScreensaver now st2, 1, pc.2⟩
    else ⟨st2, 0, pc.2⟩
  else ⟨st1, 0, false⟩

/-- One iteration of `loop()` (lines 1455-1491): touch check, `newDataReady`
check with `applyFetchResults`, idle-timeout activation, animation tick.
Returns the state, the channel, the number of `matrixStopScreensaver` calls
and the number of `matrixDrawFrame` calls of this iteration. -/
def loopIter (now : Nat) (touched : Bool) (screenAsleep : Bool)
    (st : AppState) (ch : Channel) : AppState × Channel × Nat × Nat :=
  let p1 : AppState × Nat :=
    if touched then
      let stT := { st with lastTouchTime := now }
      if stT.screensaverActive then (matrixStopScreensaver now stT, 1)
      else (stT, 0)
    else (st, 0)
  let p2 : AppState × Channel × Nat :=
    if ch.ready then
      let t := tryTake ch
      match t.1 with
      | some res =>
        let o := applyFetchResults now p1.1 res
        (o.state, t.2, o.stops)
      | none => (p1.1, t.2, 0)
    else (p1.1, ch, 0)
  let st3 : AppState :=
    if !p2.1.screensaverActive && !screenAsleep &&
        300000 ≤ now - p2.1.lastTouchTime then
      matrixStartScreensaver now p2.1
    else p2.1
  let p4 : AppState × Nat :=
    if st3.screensaverActive && !screenAsleep && 33 ≤ now - st3.lastFrameTime then
      ({ st3 with lastFrameTime := now }, 1)
    else (st3, 0)
  (p4.1, p2.2.1, p1.2 + p2.2.2, p4.2)

/-- Once the change flag is set, the rest of the diff loop keeps it set. -/
lemma diffGo_snd_true (comps : List ComponentResult) :
    ∀ n i prev, (diffGo comps n i prev true).2 = true := by
  intro n
  induction n with
  | zero => intro i prev; rfl
  | succ n ih =>
    intro i prev
    simp only [diffGo]
    split
    · exact ih (i + 1) _
    · exact ih (i + 1) prev

/-- The diff loop's flag is set exactly when it started set or some compared
index differs; each index is compared against the pre-loop table because the
loop writes an index only after comparing it. -/
lemma diffGo_snd_iff (comps : List ComponentResult) :
    ∀ n i prev changed, (diffGo comps n i prev changed).2 = true ↔
      (changed = true ∨ ∃ j, j < n ∧
        prev.getD (i + j) "" ≠ (comps.getD (i + j) defaultComp).status) := by
  intro n
  induction n with
  | zero => intro i prev changed; simp [diffGo]
  | succ n ih =>
    intro i prev changed
    simp only [diffGo]
    by_cases h : prev.getD i "" ≠ (comps.getD i defaultComp).status
    · rw [if_pos h, diffGo_snd_true]
      constructor
      · intro _
        exact Or.inr ⟨0, Nat.succ_pos n, by simpa using h⟩
      · intro _; rfl
    · rw [if_neg h, ih (i + 1) prev changed]
      push_neg at h
      constructor
      · rintro (hc | ⟨j, hj, hne⟩)
        · exact Or.inl hc
        · refine Or.inr ⟨j + 1, by omega, ?_⟩
          have hidx : i + (j + 1) = i + 1 + j := by omega
          rw [hidx]; exact hne
      · rintro (hc | ⟨j, hj, hne⟩)
        · exact Or.inl hc
        · cases j with
          | zero => simp only [Nat.add_zero] at hne; exact absurd h hne
          | succ j =>
            refine Or.inr ⟨j, by omega, ?_⟩
            have hidx : i + 1 + j = i + (j + 1) := by omega
            rw [hidx]; exact hne

/-- The diff loop never writes a table entry at or beyond the range it
scans. -/
lemma diffGo_fst_stable (comps : List ComponentResult) :
    ∀ n i prev changed j, i + n ≤ j →
      ((diffGo comps n i prev changed).1).getD j "" = prev.getD j "" := by
  intro n
  induction n with
  | zero => intro i prev changed j _; rfl
  | succ n ih =>
    intro i prev changed j hj
    simp only [diffGo]
    split
    · rw [ih (i + 1) _ true j (by omega)]
      rw [List.getD_eq_getElem?_getD, List.getD_eq_getElem?_getD,
          List.getElem?_set_ne (by omega)]
      simp
    · exact ih (i + 1) prev changed j (by omega)

/-- On a valid result the consumer's change flag is the diff loop's flag. -/
lemma applyFetchResults_changed (now : Nat) (st : AppState) (res : FetchResult)
    (hv : res.valid = true) :
    (applyFetchResults now st res).changed =
      (diffLoop st.prevStatus res.components res.componentCount).2 := by
  simp only [applyFetchResults, hv, if_true]
  split <;> rfl

/-- On a valid result the consumer installs the diff loop's updated table. -/
lemma applyFetchResults_prev (now : Nat) (st : AppState) (res : FetchResult)
    (hv : res.valid = true) :
    (applyFetchResults now st res).state.prevStatus =
      (diffLoop st.prevStatus res.components res.componentCount).1 := by
  simp only [applyFetchResults, hv, if_true]
  split <;> rfl

/-- C1: for every valid poll result applied by the foreground consumer, the
computed statusChanged flag is true iff at least one index below the
component count holds a status differing from the prevStatus table entry at
that index; in particular two identical consecutive polls never set it. -/
theorem statusChanged_iff_diff (now : Nat) (st : AppState) (res : FetchResult)
    (hv : res.valid = true) :
    (applyFetchResults now st res).changed = true ↔
      ∃ i, i < res.componentCount ∧
        st.prevStatus.getD i "" ≠ (res.components.getD i defaultComp).status := by
  rw [applyFetchResults_changed now st res hv]
  unfold diffLoop
  rw [diffGo_snd_iff]
  simp

/-- C10: the consumer's diff scans only indices below componentCount; table
entries at or beyond it persist unchanged, and whenever the scanned prefix
matches the table the change flag stays clear — so a poll returning fewer
filtered components than before never sets the flag for the vanished tail. -/
theorem prev_table_frame (now : Nat) (st : AppState) (res : FetchResult)
    (hv : res.valid = true) :
    (∀ j, res.componentCount ≤ j →
        (applyFetchResults now st res).state.prevStatus.getD j "" =
          st.prevStatus.getD j "") ∧
    ((∀ i, i < res.componentCount →
        st.prevStatus.getD i "" = (res.components.getD i defaultComp).status) →
      (applyFetchResults now st res).changed = false) := by
  constructor
  · intro j hj
    rw [applyFetchResults_prev now st res hv]
    exact diffGo_fst_stable res.components res.componentCount 0 st.prevStatus
      false j (by omega)
  · intro hall
    rw [applyFetchResults_changed now st res hv]
    cases hc : (diffLoop st.prevStatus res.components res.componentCount).2 with
    | false => rfl
    | true =>
      exfalso
      have := (diffGo_snd_iff res.components res.componentCount 0 st.prevStatus
        false).mp hc
      rcases this with h | ⟨j, hj, hne⟩
      · exact Bool.false_ne_true h
      · exact hne (by simpa using hall j (by omega))

/-- When a status or incident change is seen under an active screensaver,
the consumer stops the screensaver exactly once and resets the idle
reference. -/
lemma applyFetchResults_exits (now : Nat) (st : AppState) (res : FetchResult)
    (hv : res.valid = true) (hss : st.screensaverActive = true)
    (hc : (diffLoop st.prevStatus res.components res.componentCount).2 = true ∨
          st.hasUnresolvedIncidents ≠ res.hasIncidents) :
    (applyFetchResults now st res).state.screensaverActive = false ∧
    (applyFetchResults now st res).stops = 1 ∧
    (applyFetchResults now st res).state.lastTouchTime = now := by
  rcases hc with h | h <;>
    simp [applyFetchResults, hv, hss, h, matrixStopScreensaver]

/-- With no status change and an unchanged incident flag the consumer leaves
the screensaver flag and both timers alone. -/
lemma applyFetchResults_no_exit (now : Nat) (st : AppState) (res : FetchResult)
    (hv : res.valid = true)
    (hdl : (diffLoop st.prevStatus res.components res.componentCount).2 = false)
    (hinc : st.hasUnresolvedIncidents = res.hasIncidents) :
    (applyFetchResults now st res).state.screensaverActive = st.screensaverActive ∧
    (applyFetchResults now st res).stops = 0 ∧
    (applyFetchResults now st res).state.lastTouchTime = st.lastTouchTime ∧
    (applyFetchResults now st res).state.lastFrameTime = st.lastFrameTime := by
  simp [applyFetchResults, hv, hdl, hinc]

/-- A touch-free loop iteration with pending data: take the slot, apply it,
then run the idle and animation checks. -/
lemma loopIter_ready (now : Nat) (asleep : Bool) (st : AppState) (ch : Channel)
    (hrdy : ch.ready = true) :
    loopIter now false asleep st ch =
      (let o := applyFetchResults now st ch.slot
       let st3 :=
         if !o.state.screensaverActive && !asleep &&
             300000 ≤ now - o.state.lastTouchTime then
           matrixStartScreensaver now o.state
         else o.state
       let p4 : AppState × Nat :=
         if st3.screensaverActive && !asleep && 33 ≤ now - st3.lastFrameTime then
           ({ st3 with lastFrameTime := now }, 1)
         else (st3, 0)
       (p4.1, ⟨ch.slot, false⟩, o.stops, p4.2)) := by
  simp [loopIter, tryTake, hrdy]

/-- C2 (amended): with the screensaver active and a pending valid snapshot,
a true change flag forces the Dashboard transition exactly once in the
iteration and suppresses that iteration's animation tick; a false change
flag whose snapshot also carries an unchanged unresolved-incidents flag
leaves the screensaver running with no transition. -/
theorem screensaver_exit_on_change (now : Nat) (st : AppState) (ch : Channel)
    (hss : st.screensaverActive = true) (hrdy : ch.ready = true)
    (hv : ch.slot.valid = true) :
    ((applyFetchResults now st ch.slot).changed = true →
      (loopIter now false false st ch).1.screensaverActive = false ∧
      (loopIter now false false st ch).2.2.1 = 1 ∧
      (loopIter now false false st ch).2.2.2 = 0) ∧
    ((applyFetchResults now st ch.slot).changed = false →
      ch.slot.hasIncidents = st.hasUnresolvedIncidents →
      (loopIter now false false st ch).1.screensaverActive = true ∧
      (loopIter now false false st ch).2.2.1 = 0) := by
  have hcgd := applyFetchResults_changed now st ch.slot hv
  rw [loopIter_ready now false st ch hrdy]
  constructor
  · intro hch
    obtain ⟨h1, h2, h3⟩ := applyFetchResults_exits now st ch.slot hv hss
      (Or.inl (hcgd ▸ hch))
    simp [h1, h2, h3]
  · intro hch hieq
    obtain ⟨h1, h2, h3, h4⟩ := applyFetchResults_no_exit now st ch.slot hv
      (hcgd ▸ hch) hieq.symm
    rw [hss] at h1
    by_cases hfr : 33 ≤ now - st.lastFrameTime <;>
      simp [h1, h2, h3, h4, hfr]

/-- A foreground state with the screensaver running, no unresolved
incidents, and a blank previous-status table. -/
def stSaver : AppState :=
  { screensaverActive := true
    allOperational := true
    hasUnresolvedIncidents := false
    matrixSeverity := 0
    prevStatus := List.replicate 10 ""
    cachedStatusText := ""
    lastTouchTime := 0
    lastFrameTime := 0 }

/-- A valid snapshot with no components whose unresolved-incidents flag is
set: its change flag computes to false, yet the incident flag differs. -/
def resIncident : FetchResult := { initResult with valid := true, hasIncidents := true }

/-- A pending channel holding one component that differs from the blank
table, so the change flag computes to true. -/
def chChange : Channel :=
  ⟨{ initResult with
      valid := true
      componentCount := 1
      components := [⟨"API Requests", "degraded_performance"⟩] }, true⟩

/-- A pending channel holding a valid snapshot with no components and a
clear incident flag: nothing changes on applying it. -/
def chSame : Channel := ⟨{ initResult with valid := true }, true⟩

/-- C2, counterexample to the claim as stated: applying a valid snapshot
whose change flag is false under an active screensaver does not always
leave the screensaver state unchanged — a flipped unresolved-incidents flag
exits it. -/
theorem screensaver_nochange_exit_cex :
    (applyFetchResults 5 stSaver resIncident).changed = false ∧
    stSaver.screensaverActive = true ∧ resIncident.valid = true ∧
    (applyFetchResults 5 stSaver resIncident).state.screensaverActive = false := by
  decide

/-- C2, witness: both halves of the amended statement at concrete inputs. -/
theorem screensaver_exit_on_change_w :
    ((loopIter 7 false false stSaver chChange).1.screensaverActive = false ∧
      (loopIter 7 false false stSaver chChange).2.2.1 = 1 ∧
      (loopIter 7 false false stSaver chChange).2.2.2 = 0) ∧
    ((loopIter 9 false false stSaver chSame).1.screensaverActive = true ∧
      (loopIter 9 false false stSaver chSame).2.2.1 = 0) :=
  ⟨(screensaver_exit_on_change 7 stSaver chChange rfl rfl rfl).1 (by decide),
   (screensaver_exit_on_change 9 stSaver chSame rfl rfl rfl).2 (by decide) (by decide)⟩

/-- C9: while the screensaver is active, a valid snapshot whose incident
flag differs from the stored hasUnresolvedIncidents exits the screensaver
(exactly one stop), even with no component status change. -/
theorem incident_flip_exits (now : Nat) (st : AppState) (res : FetchResult)
    (hss : st.screensaverActive = true) (hv : res.valid = true)
    (hinc : st.hasUnresolvedIncidents ≠ res.hasIncidents) :
    (applyFetchResults now st res).state.screensaverActive = false ∧
    (applyFetchResults now st res).stops = 1 := by
  obtain ⟨h1, h2, _⟩ := applyFetchResults_exits now st res hv hss (Or.inr hinc)
  exact ⟨h1, h2⟩

/-- C9, witness: a concrete incident-only snapshot (no status change) exits
the screensaver. -/
theorem incident_flip_exits_w :
    (applyFetchResults 3 stSaver resIncident).state.screensaverActive = false ∧
    (applyFetchResults 3 stSaver resIncident).stops = 1 :=
  incident_flip_exits 3 stSaver resIncident rfl rfl (by decide)

/-- Severity contributed by one kept component, as classified by the fetch
loop: major outage 2, degraded or partial outage 1, anything else 0. -/
def sevOf (c : RawComponent) : Nat :=
  if c.status = "major_outage" then 2
  else if c.status = "degraded_performance" ∨ c.status = "partial_outage" then 1
  else 0

/-- Worst severity over a list of kept components. -/
def sevList (l : List RawComponent) : Nat :=
  l.foldr (fun c m => max (sevOf c) m) 0

lemma sevOf_le_two (c : RawComponent) : sevOf c ≤ 2 := by
  unfold sevOf; split
  · exact Nat.le_refl 2
  · split <;> omega

lemma sevList_le_two : ∀ l, sevList l ≤ 2
  | [] => Nat.zero_le 2
  | c :: rest => by
    simp only [sevList, List.foldr_cons]
    have h1 := sevOf_le_two c
    have h2 := sevList_le_two rest
    simp only [sevList] at h2
    omega

/-- Storing a component changes only `components`. -/
lemma storeComp_fields (c : RawComponent) (res : FetchResult) :
    (storeComp c res).valid = res.valid ∧
    (storeComp c res).hasIncidents = res.hasIncidents ∧
    (storeComp c res).worstSeverity = res.worstSeverity ∧
    (storeComp c res).allOperational = res.allOperational :=
  ⟨rfl, rfl, rfl, rfl⟩

/-- The change check changes only `statusChanged`. -/
lemma noteChange_fields (prev : List String) (idx : Nat) (c : RawComponent)
    (res : FetchResult) :
    (noteChange prev idx c res).valid = res.valid ∧
    (noteChange prev idx c res).hasIncidents = res.hasIncidents ∧
    (noteChange prev idx c res).worstSeverity = res.worstSeverity ∧
    (noteChange prev idx c res).allOperational = res.allOperational := by
  unfold noteChange
  split <;> exact ⟨rfl, rfl, rfl, rfl⟩

/-- Classification changes only `allOperational` and `worstSeverity`. -/
lemma classifyStatus_fields (c : RawComponent) (res : FetchResult) :
    (classifyStatus c res).valid = res.valid ∧
    (classifyStatus c res).hasIncidents = res.hasIncidents := by
  unfold classifyStatus
  split
  · exact ⟨rfl, rfl⟩
  · split
    · exact ⟨rfl, rfl⟩
    · split
      · exact ⟨rfl, rfl⟩
      · exact ⟨rfl, rfl⟩

/-- Within the severity range the classification acts as a `max` with the
component's own severity. -/
lemma classifyStatus_worst (c : RawComponent) (res : FetchResult)
    (hw : res.worstSeverity ≤ 2) :
    (classifyStatus c res).worstSeverity = max res.worstSeverity (sevOf c) := by
  unfold classifyStatus sevOf
  by_cases hmaj : c.status = "major_outage"
  · rw [if_pos hmaj, if_pos hmaj]
    show (2 : Nat) = max res.worstSeverity 2
    omega
  · rw [if_neg hmaj, if_neg hmaj]
    by_cases hdeg : c.status = "degraded_performance" ∨ c.status = "partial_outage"
    · rw [if_pos hdeg, if_pos hdeg]
      show (if res.worstSeverity < 1 then 1 else res.worstSeverity) =
        max res.worstSeverity 1
      split <;> omega
    · rw [if_neg hdeg, if_neg hdeg]
      by_cases hop : c.status ≠ "operational"
      · rw [if_pos hop]
        show res.worstSeverity = max res.worstSeverity 0
        omega
      · rw [if_neg hop]
        show res.worstSeverity = max res.worstSeverity 0
        omega

/-- Classification clears `allOperational` exactly on a non-operational
status. -/
lemma classifyStatus_allOp (c : RawComponent) (res : FetchResult) :
    (classifyStatus c res).allOperational =
      (res.allOperational && (c.status == "operational")) := by
  unfold classifyStatus
  by_cases hmaj : c.status = "major_outage"
  · rw [if_pos hmaj]
    show false = (res.allOperational && (c.status == "operational"))
    simp [hmaj]
  · rw [if_neg hmaj]
    by_cases hdeg : c.status = "degraded_performance" ∨ c.status = "partial_outage"
    · rw [if_pos hdeg]
      show false = (res.allOperational && (c.status == "operational"))
      rcases hdeg with h | h <;> simp [h]
    · rw [if_neg hdeg]
      by_cases hop : c.status ≠ "operational"
      · rw [if_pos hop]
        show false = (res.allOperational && (c.status == "operational"))
        simp [hop]
      · rw [if_neg hop]
        push_neg at hop
        simp [hop]

/-- The whole per-entry update, on `worstSeverity`. -/
lemma procOne_worst (prev : List String) (idx : Nat) (c : RawComponent)
    (res : FetchResult) (hw : res.worstSeverity ≤ 2) :
    (classifyStatus c (noteChange prev idx c (storeComp c res))).worstSeverity =
      max res.worstSeverity (sevOf c) := by
  rw [classifyStatus_worst c _ (by
    rw [(noteChange_fields prev idx c _).2.2.1, (storeComp_fields c res).2.2.1]
    exact hw)]
  rw [(noteChange_fields prev idx c _).2.2.1, (storeComp_fields c res).2.2.1]

/-- The whole per-entry update, on `allOperational`. -/
lemma procOne_allOp (prev : List String) (idx : Nat) (c : RawComponent)
    (res : FetchResult) :
    (classifyStatus c (noteChange prev idx c (storeComp c res))).allOperational =
      (res.allOperational && (c.status == "operational")) := by
  rw [classifyStatus_allOp]
  rw [(noteChange_fields prev idx c _).2.2.2, (storeComp_fields c res).2.2.2]

/-- The whole per-entry update keeps `valid` and `hasIncidents`. -/
lemma procOne_fields (prev : List String) (idx : Nat) (c : RawComponent)
    (res : FetchResult) :
    (classifyStatus c (noteChange prev idx c (storeComp c res))).valid =
      res.valid ∧
    (classifyStatus c (noteChange prev idx c (storeComp c res))).hasIncidents =
      res.hasIncidents := by
  obtain ⟨h1, h2⟩ := classifyStatus_fields c (noteChange prev idx c (storeComp c res))
  obtain ⟨h3, h4, _, _⟩ := noteChange_fields prev idx c (storeComp c res)
  obtain ⟨h5, h6, _, _⟩ := storeComp_fields c res
  exact ⟨h1.trans (h3.trans h5), h2.trans (h4.trans h6)⟩

/-- The fetch loop only adds to `worstSeverity` the max of the severities of
the kept components it still has budget for. -/
lemma fetchGo_worst (prev : List String) :
    ∀ raws idx res, res.worstSeverity ≤ 2 →
      (fetchGo prev raws idx res).1.worstSeverity =
        max res.worstSeverity (sevList ((raws.filter keepComp).take (10 - idx))) := by
  intro raws
  induction raws with
  | nil => intro idx res _; simp [fetchGo, sevList]
  | cons c rest ih =>
    intro idx res hw
    by_cases h10 : 10 ≤ idx
    · have ht : 10 - idx = 0 := by omega
      simp [fetchGo, h10, ht, sevList]
    · by_cases hh : c.hidden = true
      · have hk : keepComp c = false := by simp [keepComp, hh]
        simp only [fetchGo, if_neg h10, hh, if_true, List.filter_cons, hk,
          Bool.false_eq_true, if_false]
        exact ih idx res hw
      · by_cases hvp : startsWithVisit c.name = true
        · have hk : keepComp c = false := by simp [keepComp, hvp]
          simp only [fetchGo, if_neg h10, hh, Bool.false_eq_true, if_false,
            hvp, if_true, List.filter_cons, hk]
          exact ih idx res hw
        · have hk : keepComp c = true := by simp [keepComp, hh, hvp]
          have htake : (10 : Nat) - idx = (10 - (idx + 1)) + 1 := by omega
          simp only [fetchGo, if_neg h10, hh, Bool.false_eq_true, if_false, hvp,
            List.filter_cons, hk, if_true, htake, List.take_succ_cons]
          rw [ih (idx + 1) _ (by
            rw [procOne_worst prev idx c res hw]
            have := sevOf_le_two c
            omega)]
          rw [procOne_worst prev idx c res hw]
          simp only [sevList, List.foldr_cons]
          omega

/-- The fetch loop clears `allOperational` exactly when some kept component
within budget is not operational. -/
lemma fetchGo_allOp (prev : List String) :
    ∀ raws idx res,
      (fetchGo prev raws idx res).1.allOperational =
        (res.allOperational &&
          ((raws.filter keepComp).take (10 - idx)).all
            (fun c => c.status == "operational")) := by
  intro raws
  induction raws with
  | nil => intro idx res; simp [fetchGo]
  | cons c rest ih =>
    intro idx res
    by_cases h10 : 10 ≤ idx
    · have ht : 10 - idx = 0 := by omega
      simp [fetchGo, h10, ht]
    · by_cases hh : c.hidden = true
      · have hk : keepComp c = false := by simp [keepComp, hh]
        simp only [fetchGo, if_neg h10, hh, if_true, List.filter_cons, hk,
          Bool.false_eq_true, if_false]
        exact ih idx res
      · by_cases hvp : startsWithVisit c.name = true
        · have hk : keepComp c = false := by simp [keepComp, hvp]
          simp only [fetchGo, if_neg h10, hh, Bool.false_eq_true, if_false,
            hvp, if_true, List.filter_cons, hk]
          exact ih idx res
        · have hk : keepComp c = true := by simp [keepComp, hh, hvp]
          have htake : (10 : Nat) - idx = (10 - (idx + 1)) + 1 := by omega
          simp only [fetchGo, if_neg h10, hh, Bool.false_eq_true, if_false, hvp,
            List.filter_cons, hk, if_true, htake, List.take_succ_cons,
            List.all_cons]
          rw [ih (idx + 1), procOne_allOp prev idx c res]
          cases res.allOperational <;>
            cases hb : (c.status == "operational") <;> simp

/-- The fetch loop never touches `valid` or `hasIncidents`. -/
lemma fetchGo_proj (prev : List String) :
    ∀ raws idx res,
      (fetchGo prev raws idx res).1.valid = res.valid ∧
      (fetchGo prev raws idx res).1.hasIncidents = res.hasIncidents := by
  intro raws
  induction raws with
  | nil => intro idx res; exact ⟨rfl, rfl⟩
  | cons c rest ih =>
    intro idx res
    simp only [fetchGo]
    split
    · exact ⟨rfl, rfl⟩
    · split
      · exact ih idx res
      · split
        · exact ih idx res
        · obtain ⟨h1, h2⟩ :=
            ih (idx + 1) (classifyStatus c (noteChange prev idx c (storeComp c res)))
          obtain ⟨h3, h4⟩ := procOne_fields prev idx c res
          exact ⟨h1.trans h3, h2.trans h4⟩

/-- The incidents phase changes only `hasIncidents`. -/
lemma fetchIncidentsPhase_proj (code : Int) (parsed : Option Nat)
    (res : FetchResult) :
    (fetchIncidentsPhase code parsed res).valid = res.valid ∧
    (fetchIncidentsPhase code parsed res).worstSeverity = res.worstSeverity ∧
    (fetchIncidentsPhase code parsed res).allOperational = res.allOperational := by
  unfold fetchIncidentsPhase
  split
  · split <;> exact ⟨rfl, rfl, rfl⟩
  · exact ⟨rfl, rfl, rfl⟩

lemma sevOf_major (c : RawComponent) (h : c.status = "major_outage") :
    sevOf c = 2 := by simp [sevOf, h]

lemma sevOf_degpar (c : RawComponent) (hm : c.status ≠ "major_outage")
    (h : c.status = "degraded_performance" ∨ c.status = "partial_outage") :
    sevOf c = 1 := by simp [sevOf, hm, h]

lemma sevOf_other (c : RawComponent) (hm : c.status ≠ "major_outage")
    (hd : ¬(c.status = "degraded_performance" ∨ c.status = "partial_outage")) :
    sevOf c = 0 := by simp [sevOf, hm, hd]

lemma sevOf_le_one (c : RawComponent) (hm : c.status ≠ "major_outage") :
    sevOf c ≤ 1 := by
  unfold sevOf
  rw [if_neg hm]
  split <;> omega

/-- Worst severity over a list, determined by the two severity scans. -/
lemma sevList_cases3 : ∀ l : List RawComponent,
    ((l.any fun c => c.status == "major_outage") = true → sevList l = 2) ∧
    ((l.any fun c => c.status == "major_outage") = false →
      (l.any fun c => c.status == "degraded_performance" ||
        c.status == "partial_outage") = true → sevList l = 1) ∧
    ((l.any fun c => c.status == "major_outage") = false →
      (l.any fun c => c.status == "degraded_performance" ||
        c.status == "partial_outage") = false → sevList l = 0)
  | [] => by simp [sevList]
  | c :: rest => by
    obtain ⟨ih1, ih2, ih3⟩ := sevList_cases3 rest
    have hso := sevOf_le_two c
    have hsl := sevList_le_two rest
    simp only [sevList, List.foldr_cons] at *
    refine ⟨?_, ?_, ?_⟩
    · intro h
      rw [List.any_cons, Bool.or_eq_true, beq_iff_eq] at h
      rcases h with h | h
      · have := sevOf_major c h; omega
      · have := ih1 h; omega
    · intro hm hd
      rw [List.any_cons, Bool.or_eq_false_iff, beq_eq_false_iff_ne] at hm
      obtain ⟨hm1, hm2⟩ := hm
      rw [List.any_cons, Bool.or_eq_true] at hd
      have hone := sevOf_le_one c hm1
      rcases hd with hd | hd
      · rw [Bool.or_eq_true, beq_iff_eq, beq_iff_eq] at hd
        have hrest : List.foldr (fun c m => max (sevOf c) m) 0 rest ≤ 1 := by
          cases hAD : (rest.any fun c => c.status == "degraded_performance" ||
              c.status == "partial_outage") with
          | true => have := ih2 hm2 hAD; omega
          | false => have := ih3 hm2 hAD; omega
        have := sevOf_degpar c hm1 hd
        omega
      · have := ih2 hm2 hd
        omega
    · intro hm hd
      rw [List.any_cons, Bool.or_eq_false_iff, beq_eq_false_iff_ne] at hm
      obtain ⟨hm1, hm2⟩ := hm
      rw [List.any_cons, Bool.or_eq_false_iff] at hd
      obtain ⟨hd1, hd2⟩ := hd
      rw [Bool.or_eq_false_iff, beq_eq_false_iff_ne, beq_eq_false_iff_ne] at hd1
      have := sevOf_other c hm1 (by tauto)
      have := ih3 hm2 hd2
      omega

/-- The final severity bump of the cycle: every field but `worstSeverity`
passes through, and `worstSeverity` is raised to 1 when incidents are
present and the scan stayed at 0. -/
lemma fetchCycle_proj (prev : List String) (cCode : Int)
    (cParsed : Option (List RawComponent)) (iCode : Int) (iParsed : Option Nat)
    (t : Option String) :
    (fetchCycle prev cCode cParsed iCode iParsed t).valid =
      (fetchIncidentsPhase iCode iParsed
        (fetchComponentsPhase prev cCode cParsed t)).valid ∧
    (fetchCycle prev cCode cParsed iCode iParsed t).allOperational =
      (fetchIncidentsPhase iCode iParsed
        (fetchComponentsPhase prev cCode cParsed t)).allOperational ∧
    (fetchCycle prev cCode cParsed iCode iParsed t).hasIncidents =
      (fetchIncidentsPhase iCode iParsed
        (fetchComponentsPhase prev cCode cParsed t)).hasIncidents ∧
    (fetchCycle prev cCode cParsed iCode iParsed t).worstSeverity =
      (if (fetchIncidentsPhase iCode iParsed
            (fetchComponentsPhase prev cCode cParsed t)).hasIncidents = true ∧
          (fetchIncidentsPhase iCode iParsed
            (fetchComponentsPhase prev cCode cParsed t)).worstSeverity < 1 then 1
       else (fetchIncidentsPhase iCode iParsed
            (fetchComponentsPhase prev cCode cParsed t)).worstSeverity) := by
  unfold fetchCycle
  dsimp only
  split
  · rename_i h
    rw [Bool.and_eq_true] at h
    refine ⟨rfl, rfl, rfl, ?_⟩
    rw [if_pos ⟨h.1, of_decide_eq_true h.2⟩]
  · rename_i h
    refine ⟨rfl, rfl, rfl, ?_⟩
    rw [if_neg (fun hc => h (Bool.and_eq_true _ _ |>.mpr
      ⟨hc.1, decide_eq_true hc.2⟩))]

/-- C3: on every successful poll (HTTP 200, body parsed), the published
worst severity is 2 when some filtered component reports major_outage, else
1 when some filtered component reports degraded_performance or
partial_outage or the unresolved-incidents flag is set, else 0. -/
theorem worst_severity_spec (prev : List String) (raws : List RawComponent)
    (iCode : Int) (iParsed : Option Nat) (t : Option String) :
    (fetchCycle prev 200 (some raws) iCode iParsed t).valid = true ∧
    (fetchCycle prev 200 (some raws) iCode iParsed t).worstSeverity =
      (if ((raws.filter keepComp).take 10).any
          (fun c => c.status == "major_outage") then 2
       else if ((raws.filter keepComp).take 10).any
            (fun c => c.status == "degraded_performance" ||
              c.status == "partial_outage") ||
          (fetchCycle prev 200 (some raws) iCode iParsed t).hasIncidents then 1
       else 0) := by
  obtain ⟨hv, hao, hinc, hw⟩ := fetchCycle_proj prev 200 (some raws) iCode iParsed t
  have hip := fetchIncidentsPhase_proj iCode iParsed
    (fetchComponentsPhase prev 200 (some raws) t)
  have hr1v : (fetchComponentsPhase prev 200 (some raws) t).valid = true := by
    simp [fetchComponentsPhase]
  have hr1w : (fetchComponentsPhase prev 200 (some raws) t).worstSeverity =
      (fetchGo prev raws 0 initResult).1.worstSeverity := by
    simp [fetchComponentsPhase]
  have h2w : (fetchIncidentsPhase iCode iParsed
      (fetchComponentsPhase prev 200 (some raws) t)).worstSeverity =
      sevList ((raws.filter keepComp).take 10) := by
    rw [hip.2.1, hr1w, fetchGo_worst prev raws 0 initResult (by simp [initResult])]
    simp [initResult]
  obtain ⟨hc1, hc2, hc3⟩ := sevList_cases3 ((raws.filter keepComp).take 10)
  refine ⟨hv.trans (hip.1.trans hr1v), ?_⟩
  simp only [hw, h2w, hinc]
  set K := (raws.filter keepComp).take 10 with hKdef
  set IncP := fetchIncidentsPhase iCode iParsed
    (fetchComponentsPhase prev 200 (some raws) t) with hIncPdef
  by_cases hM : (K.any fun c => c.status == "major_outage") = true
  · rw [if_pos hM,
      if_neg (show ¬(IncP.hasIncidents = true ∧ sevList K < 1) from
        fun hc => by have := hc1 hM; omega)]
    exact hc1 hM
  · rw [Bool.not_eq_true] at hM
    rw [if_neg (show ¬((K.any fun c => c.status == "major_outage") = true) from
      by simp [hM])]
    by_cases hD : (K.any fun c => c.status == "degraded_performance" ||
        c.status == "partial_outage") = true
    · rw [if_pos (show ((K.any fun c => c.status == "degraded_performance" ||
            c.status == "partial_outage") || IncP.hasIncidents) = true from
          by simp [hD]),
        if_neg (show ¬(IncP.hasIncidents = true ∧ sevList K < 1) from
          fun hc => by have := hc2 hM hD; omega)]
      exact hc2 hM hD
    · rw [Bool.not_eq_true] at hD
      by_cases hI : IncP.hasIncidents = true
      · rw [if_pos (show ((K.any fun c => c.status == "degraded_performance" ||
              c.status == "partial_outage") || IncP.hasIncidents) = true from
            by simp [hI]),
          if_pos (show IncP.hasIncidents = true ∧ sevList K < 1 from
            ⟨hI, by have := hc3 hM hD; omega⟩)]
      · rw [Bool.not_eq_true] at hI
        rw [if_neg (show ¬((K.any fun c => c.status == "degraded_performance" ||
              c.status == "partial_outage") || IncP.hasIncidents) = true from
            by simp [hD, hI]),
          if_neg (show ¬(IncP.hasIncidents = true ∧ sevList K < 1) from
            fun hc => by rw [hI] at hc; exact Bool.false_ne_true hc.1)]
        exact hc3 hM hD

/-- C4 (amended): on every successful poll, `allOperational` is true iff
every filtered component's status is `operational`; it is not equivalent to
`worstSeverity == 0`, which an unrecognized status leaves at 0 while
clearing `allOperational`, and which unresolved incidents raise while
leaving `allOperational` set. -/
theorem all_operational_spec (prev : List String) (raws : List RawComponent)
    (iCode : Int) (iParsed : Option Nat) (t : Option String) :
    (fetchCycle prev 200 (some raws) iCode iParsed t).valid = true ∧
    (fetchCycle prev 200 (some raws) iCode iParsed t).allOperational =
      ((raws.filter keepComp).take 10).all (fun c => c.status == "operational") := by
  obtain ⟨hv, hao, hinc, hw⟩ := fetchCycle_proj prev 200 (some raws) iCode iParsed t
  have hip := fetchIncidentsPhase_proj iCode iParsed
    (fetchComponentsPhase prev 200 (some raws) t)
  have hr1v : (fetchComponentsPhase prev 200 (some raws) t).valid = true := by
    simp [fetchComponentsPhase]
  have hr1a : (fetchComponentsPhase prev 200 (some raws) t).allOperational =
      (fetchGo prev raws 0 initResult).1.allOperational := by
    simp [fetchComponentsPhase]
  have ha : (fetchGo prev raws 0 initResult).1.allOperational =
      ((raws.filter keepComp).take 10).all (fun c => c.status == "operational") := by
    rw [fetchGo_allOp prev raws 0 initResult]
    simp [initResult]
  exact ⟨hv.trans (hip.1.trans hr1v),
    hao.trans (hip.2.2.trans (hr1a.trans ha))⟩

/-- A result built from a single component whose status string is
unrecognized: `allOperational` is cleared yet severity stays 0. -/
def resUnknown : FetchResult :=
  fetchCycle (List.replicate 10 "") 200
    (some [⟨"API Requests", "under_maintenance", false⟩]) 0 none none

/-- C4, counterexample to the claim as stated: a valid fetch result whose
`allOperational` is false while `worstSeverity` is 0. -/
theorem all_operational_cex :
    resUnknown.valid = true ∧
    ¬(resUnknown.allOperational = true ↔ resUnknown.worstSeverity = 0) := by
  decide

/-- C1, witness: one differing component index makes the applied change
flag true. -/
theorem statusChanged_iff_diff_w :
    (applyFetchResults 0 stSaver chChange.slot).changed = true :=
  (statusChanged_iff_diff 0 stSaver chChange.slot rfl).mpr
    ⟨0, by decide, by decide⟩

/-- A dashboard state whose previous-status table still holds three
entries from an earlier, larger poll. -/
def stShrink : AppState :=
  { screensaverActive := false
    allOperational := true
    hasUnresolvedIncidents := false
    matrixSeverity := 0
    prevStatus := ["operational", "operational", "major_outage"]
    cachedStatusText := ""
    lastTouchTime := 0
    lastFrameTime := 0 }

/-- A valid snapshot with only two components, both matching the table's
first two entries. -/
def resShrink : FetchResult :=
  { initResult with
    valid := true
    componentCount := 2
    components := [⟨"Git Operations", "operational"⟩, ⟨"Webhooks", "operational"⟩] }

/-- C10, witness: a poll shrinking from three to two matching components
leaves the stale third entry in place and the change flag clear. -/
theorem prev_table_frame_w :
    (applyFetchResults 0 stShrink resShrink).state.prevStatus.getD 2 "" =
      stShrink.prevStatus.getD 2 "" ∧
    (applyFetchResults 0 stShrink resShrink).changed = false :=
  ⟨(prev_table_frame 0 stShrink resShrink rfl).1 2 (by decide),
   (prev_table_frame 0 stShrink resShrink rfl).2 (fun i hi => by
      have h2 : i < 2 := hi
      rcases (by omega : i = 0 ∨ i = 1) with h | h <;> subst h <;> decide)⟩

/-- The incidents phase leaves the component data and status line alone, as
does the final severity bump. -/
lemma fetchCycle_keep (prev : List String) (cCode : Int)
    (cParsed : Option (List RawComponent)) (iCode : Int) (iParsed : Option Nat)
    (t : Option String) :
    (fetchCycle prev cCode cParsed iCode iParsed t).components =
      (fetchComponentsPhase prev cCode cParsed t).components ∧
    (fetchCycle prev cCode cParsed iCode iParsed t).componentCount =
      (fetchComponentsPhase prev cCode cParsed t).componentCount ∧
    (fetchCycle prev cCode cParsed iCode iParsed t).statusBarText =
      (fetchComponentsPhase prev cCode cParsed t).statusBarText := by
  have hi : ∀ res : FetchResult,
      (fetchIncidentsPhase iCode iParsed res).components = res.components ∧
      (fetchIncidentsPhase iCode iParsed res).componentCount = res.componentCount ∧
      (fetchIncidentsPhase iCode iParsed res).statusBarText = res.statusBarText := by
    intro res
    unfold fetchIncidentsPhase
    split
    · split <;> exact ⟨rfl, rfl, rfl⟩
    · exact ⟨rfl, rfl, rfl⟩
  unfold fetchCycle
  dsimp only
  split
  · exact ⟨(hi _).1, (hi _).2.1, (hi _).2.2⟩
  · exact ⟨(hi _).1, (hi _).2.1, (hi _).2.2⟩

/-- C6 (amended): a snapshot published through the full fetch path with
valid == false (HTTP failure or parse failure) has an empty components list
and a status line naming the failure — the numeric code for an HTTP
failure; the WiFi-down publish, however, overwrites only `valid` and the
status line, leaving the slot's previous components in place; and applying
any snapshot with valid == false leaves the severity fields, the
previous-status table and the screensaver state unchanged. -/
theorem invalid_snapshot_handling :
    (∀ (prev : List String) (code : Int) (cParsed : Option (List RawComponent))
        (iCode : Int) (iParsed : Option Nat) (t : Option String), code ≠ 200 →
      (fetchCycle prev code cParsed iCode iParsed t).valid = false ∧
      (fetchCycle prev code cParsed iCode iParsed t).components = [] ∧
      (fetchCycle prev code cParsed iCode iParsed t).componentCount = 0 ∧
      (fetchCycle prev code cParsed iCode iParsed t).statusBarText =
        "HTTP error: " ++ toString code) ∧
    (∀ (prev : List String) (iCode : Int) (iParsed : Option Nat) (t : Option String),
      (fetchCycle prev 200 none iCode iParsed t).valid = false ∧
      (fetchCycle prev 200 none iCode iParsed t).components = [] ∧
      (fetchCycle prev 200 none iCode iParsed t).statusBarText =
        "JSON parse error") ∧
    (∀ ch : Channel,
      (wifiDownPublish ch).slot.valid = false ∧
      (wifiDownPublish ch).slot.statusBarText = "WiFi disconnected" ∧
      (wifiDownPublish ch).slot.components = ch.slot.components ∧
      (wifiDownPublish ch).slot.componentCount = ch.slot.componentCount) ∧
    (∀ (now : Nat) (st : AppState) (res : FetchResult), res.valid = false →
      (applyFetchResults now st res).state.screensaverActive =
        st.screensaverActive ∧
      (applyFetchResults now st res).state.matrixSeverity = st.matrixSeverity ∧
      (applyFetchResults now st res).state.allOperational = st.allOperational ∧
      (applyFetchResults now st res).state.hasUnresolvedIncidents =
        st.hasUnresolvedIncidents ∧
      (applyFetchResults now st res).state.prevStatus = st.prevStatus ∧
      (applyFetchResults now st res).stops = 0) := by
  refine ⟨?_, ?_, fun ch => ⟨rfl, rfl, rfl, rfl⟩, ?_⟩
  · intro prev code cParsed iCode iParsed t hcode
    obtain ⟨hv, _, _, _⟩ := fetchCycle_proj prev code cParsed iCode iParsed t
    obtain ⟨hcm, hcc, hct⟩ := fetchCycle_keep prev code cParsed iCode iParsed t
    have hip := fetchIncidentsPhase_proj iCode iParsed
      (fetchComponentsPhase prev code cParsed t)
    have hcp : fetchComponentsPhase prev code cParsed t =
        { initResult with statusBarText := "HTTP error: " ++ toString code } := by
      unfold fetchComponentsPhase
      rw [if_neg hcode]
    have hfv : (fetchComponentsPhase prev code cParsed t).valid = false := by
      rw [hcp]
      try rfl
    have hfc : (fetchComponentsPhase prev code cParsed t).components = [] := by
      rw [hcp]
      try rfl
    have hfn : (fetchComponentsPhase prev code cParsed t).componentCount = 0 := by
      rw [hcp]
      try rfl
    have hft : (fetchComponentsPhase prev code cParsed t).statusBarText =
        "HTTP error: " ++ toString code := by
      rw [hcp]
      try rfl
    exact ⟨hv.trans (hip.1.trans hfv), hcm.trans hfc, hcc.trans hfn,
      hct.trans hft⟩
  · intro prev iCode iParsed t
    obtain ⟨hv, _, _, _⟩ := fetchCycle_proj prev 200 none iCode iParsed t
    obtain ⟨hcm, _, hct⟩ := fetchCycle_keep prev 200 none iCode iParsed t
    have hip := fetchIncidentsPhase_proj iCode iParsed
      (fetchComponentsPhase prev 200 none t)
    have hfv : (fetchComponentsPhase prev 200 none t).valid = false := rfl
    have hfc : (fetchComponentsPhase prev 200 none t).components = [] := rfl
    have hft : (fetchComponentsPhase prev 200 none t).statusBarText =
        "JSON parse error" := rfl
    exact ⟨hv.trans (hip.1.trans hfv), hcm.trans hfc, hct.trans hft⟩
  · intro now st res hv
    simp [applyFetchResults, hv]

/-- A valid one-component snapshot actually produced by a successful poll
cycle. -/
def resOneComp : FetchResult :=
  fetchCycle (List.replicate 10 "") 200
    (some [⟨"API Requests", "operational", false⟩]) 0 none none

/-- The shared slot after a valid publish followed by a WiFi-down publish:
this is what the consumer would copy out. -/
def chStale : Channel := wifiDownPublish (publish resOneComp ⟨initResult, false⟩)

/-- C6, counterexample to the claim as stated: a published snapshot with
valid == false whose components list is not empty — the WiFi-down publish
only overwrites `valid` and the status line in the shared slot. -/
theorem invalid_snapshot_cex :
    chStale.slot.valid = false ∧ chStale.slot.componentCount = 1 ∧
    chStale.slot.components ≠ [] := by
  decide

/-- C6, witness: the HTTP-failure path and the no-op application of the
resulting invalid snapshot, at concrete inputs. -/
theorem invalid_snapshot_handling_w :
    (fetchCycle [] 404 none 0 none none).valid = false ∧
    (fetchCycle [] 404 none 0 none none).components = [] ∧
    (fetchCycle [] 404 none 0 none none).statusBarText =
      "HTTP error: " ++ toString (404 : Int) ∧
    (applyFetchResults 2 stSaver (fetchCycle [] 404 none 0 none none)).state.screensaverActive =
      stSaver.screensaverActive ∧
    (applyFetchResults 2 stSaver (fetchCycle [] 404 none 0 none none)).stops = 0 := by
  obtain ⟨h1, h2, _, h4⟩ :=
    invalid_snapshot_handling.1 [] 404 none 0 none none (by decide)
  obtain ⟨g1, _, _, _, _, g6⟩ :=
    invalid_snapshot_handling.2.2.2 2 stSaver (fetchCycle [] 404 none 0 none none) h1
  exact ⟨h1, h2, h4, g1, g6⟩

/-- C5: the snapshot channel is latest-wins — after publishing A then B with
no intervening take, exactly one take succeeds and it returns B; the next
take returns nothing, so A is never observed. -/
theorem channel_latest_wins (A B : FetchResult) (ch : Channel) :
    (tryTake (publish B (publish A ch))).1 = some B ∧
    (tryTake (tryTake (publish B (publish A ch))).2).1 = none := by
  simp [publish, tryTake]

/-- `MatrixColumn` of the source: head position in pixels, fall speed,
trail length in cells, activity flag and respawn countdown. -/
structure MatrixColumn where
  headY : Int
  speed : Int
  length : Int
  active : Bool
  spawnDelay : Nat
deriving DecidableEq

/-- Arduino `random(lo, hi)` fed from one raw draw `r`: a value in
`[lo, hi)`. -/
def randIn (lo hi r : Nat) : Nat := lo + r % (hi - lo)

/-- `MATRIX_CHAR_H` of the source. -/
def MATRIX_CHAR_H : Nat := 30

/-- The respawn half of the per-column update in `matrixDrawFrame` (lines
879-888): an inactive column counts its delay down, and once it is spent
respawns with `headY = -(random(MATRIX_CHAR_H * 4))`, `speed = random(14,
26)` and `length = random(8, 24)`. `r1 r2 r3` are the raw draws consumed by
the three `random` calls. -/
def respawnStep (r1 r2 r3 : Nat) (c : MatrixColumn) : MatrixColumn :=
  if c.active then c
  else if 0 < c.spawnDelay then { c with spawnDelay := c.spawnDelay - 1 }
  else
    { c with
      headY := -(randIn 0 (MATRIX_CHAR_H * 4) r1 : Int)
      speed := (randIn 14 26 r2 : Int)
      length := (randIn 8 24 r3 : Int)
      active := true }

/-- The advance half (lines 889-895): an active column falls by its speed
and deactivates with `spawnDelay = random(5, 40)` once its trail end passes
the bottom of the screen. -/
def advanceStep (r4 : Nat) (screenH : Int) (c : MatrixColumn) : MatrixColumn :=
  if c.active then
    let c2 := { c with headY := c.headY + c.speed }
    if screenH < c2.headY - c2.length * (MATRIX_CHAR_H : Int) then
      { c2 with active := false, spawnDelay := randIn 5 40 r4 }
    else c2
  else c

/-- One column's full state update per animation tick. -/
def columnTick (r1 r2 r3 r4 : Nat) (screenH : Int) (c : MatrixColumn) :
    MatrixColumn :=
  advanceStep r4 screenH (respawnStep r1 r2 r3 c)

/-- C7: in every animation tick, a column that deactivates is assigned a
respawn delay in [5, 39] — strictly positive — and a column whose delay has
run out reactivates with head position ≤ 0, speed within [14, 25] and trail
length within [8, 23]. -/
theorem matrix_column_lifecycle (r1 r2 r3 r4 : Nat) (screenH : Int)
    (c : MatrixColumn) :
    ((respawnStep r1 r2 r3 c).active = true →
      (columnTick r1 r2 r3 r4 screenH c).active = false →
      0 < (columnTick r1 r2 r3 r4 screenH c).spawnDelay ∧
      (columnTick r1 r2 r3 r4 screenH c).spawnDelay ≤ 39) ∧
    (c.active = false → c.spawnDelay = 0 →
      (respawnStep r1 r2 r3 c).active = true ∧
      (respawnStep r1 r2 r3 c).headY ≤ 0 ∧
      14 ≤ (respawnStep r1 r2 r3 c).speed ∧
      (respawnStep r1 r2 r3 c).speed ≤ 25 ∧
      8 ≤ (respawnStep r1 r2 r3 c).length ∧
      (respawnStep r1 r2 r3 c).length ≤ 23) := by
  constructor
  · intro hact hdeact
    unfold columnTick advanceStep at hdeact ⊢
    rw [if_pos hact] at hdeact ⊢
    dsimp only at hdeact ⊢
    by_cases hcond : screenH <
        (respawnStep r1 r2 r3 c).headY + (respawnStep r1 r2 r3 c).speed -
          (respawnStep r1 r2 r3 c).length * (MATRIX_CHAR_H : Int)
    · rw [if_pos hcond]
      constructor
      · show 0 < randIn 5 40 r4
        unfold randIn
        omega
      · show randIn 5 40 r4 ≤ 39
        unfold randIn
        omega
    · rw [if_neg hcond] at hdeact
      exact absurd (show (respawnStep r1 r2 r3 c).active = false from hdeact)
        (by simp [hact])
  · intro hina hdel
    unfold respawnStep
    rw [if_neg (by simp [hina]), if_neg (by omega)]
    refine ⟨rfl, ?_, ?_, ?_, ?_, ?_⟩
    · show -((randIn 0 (MATRIX_CHAR_H * 4) r1 : Nat) : Int) ≤ 0
      unfold randIn MATRIX_CHAR_H
      omega
    · show 14 ≤ ((randIn 14 26 r2 : Nat) : Int)
      unfold randIn
      omega
    · show ((randIn 14 26 r2 : Nat) : Int) ≤ 25
      unfold randIn
      omega
    · show 8 ≤ ((randIn 8 24 r3 : Nat) : Int)
      unfold randIn
      omega
    · show ((randIn 8 24 r3 : Nat) : Int) ≤ 23
      unfold randIn
      omega

/-- A column high enough and fast enough that this tick pushes its trail
end past a 720-pixel screen. -/
def colFalling : MatrixColumn := ⟨1000, 20, 8, true, 0⟩

/-- An inactive column whose respawn countdown has just reached zero. -/
def colWaiting : MatrixColumn := ⟨0, 0, 0, false, 0⟩

/-- C7, witness: both lifecycle halves at concrete columns and draws. -/
theorem matrix_column_lifecycle_w :
    (0 < (columnTick 1 2 3 4 720 colFalling).spawnDelay ∧
      (columnTick 1 2 3 4 720 colFalling).spawnDelay ≤ 39) ∧
    ((respawnStep 5 6 7 colWaiting).active = true ∧
      (respawnStep 5 6 7 colWaiting).headY ≤ 0 ∧
      14 ≤ (respawnStep 5 6 7 colWaiting).speed ∧
      (respawnStep 5 6 7 colWaiting).speed ≤ 25 ∧
      8 ≤ (respawnStep 5 6 7 colWaiting).length ∧
      (respawnStep 5 6 7 colWaiting).length ≤ 23) :=
  ⟨(matrix_column_lifecycle 1 2 3 4 720 colFalling).1 (by decide) (by decide),
   (matrix_column_lifecycle 5 6 7 0 720 colWaiting).2 rfl rfl⟩

/-- Red field of an RGB565 color: `(c >> 11) & 0x1F`. -/
def chanR (c : Nat) : Nat := (c >>> 11) &&& 0x1F

/-- Green field of an RGB565 color: `(c >> 5) & 0x3F`. -/
def chanG (c : Nat) : Nat := (c >>> 5) &&& 0x3F

/-- Blue field of an RGB565 color: `c & 0x1F`. -/
def chanB (c : Nat) : Nat := c &&& 0x1F

/-- The fade of `matrixDrawFrame` (lines 925-934): red and blue decrease by
2, green by 4, each clamped at zero, and the fields are repacked. -/
def fadeColor (c : Nat) : Nat :=
  let r := chanR c
  let g := chanG c
  let b := chanB c
  let r2 := if 2 < r then r - 2 else 0
  let g2 := if 4 < g then g - 4 else 0
  let b2 := if 2 < b then b - 2 else 0
  ((r2 <<< 11) ||| (g2 <<< 5)) ||| b2

/-- One cell's stored color per tick: inside the active trail it takes the
freshly computed trail color; outside it, a nonzero color fades and a zero
color stays. -/
def cellStep (inTrail : Bool) (trailColor c : Nat) : Nat :=
  if inTrail then trailColor
  else if c ≠ 0 then fadeColor c else c

lemma chanR_eq (c : Nat) : chanR c = c / 2048 % 32 := by
  unfold chanR
  rw [Nat.shiftRight_eq_div_pow]
  have h := Nat.and_pow_two_sub_one_eq_mod (c / 2 ^ 11) 5
  norm_num at h ⊢
  exact h

lemma chanG_eq (c : Nat) : chanG c = c / 32 % 64 := by
  unfold chanG
  rw [Nat.shiftRight_eq_div_pow]
  have h := Nat.and_pow_two_sub_one_eq_mod (c / 2 ^ 5) 6
  norm_num at h ⊢
  exact h

lemma chanB_eq (c : Nat) : chanB c = c % 32 := by
  unfold chanB
  have h := Nat.and_pow_two_sub_one_eq_mod c 5
  norm_num at h ⊢
  exact h

/-- Packing bounded RGB565 fields with shifts and ors is plain
arithmetic. -/
lemma pack565 (r g b : Nat) (hg : g < 64) (hb : b < 32) :
    ((r <<< 11) ||| (g <<< 5)) ||| b = r * 2048 + g * 32 + b := by
  rw [Nat.shiftLeft_eq, Nat.shiftLeft_eq]
  have h1 : r * 2 ^ 11 ||| g * 2 ^ 5 = 2 ^ 11 * r + g * 2 ^ 5 := by
    rw [Nat.mul_comm r (2 ^ 11)]
    exact (Nat.mul_add_lt_is_or (show g * 2 ^ 5 < 2 ^ 11 by omega) r).symm
  rw [h1]
  have h2 : 2 ^ 11 * r + g * 2 ^ 5 = 2 ^ 5 * (r * 64 + g) := by ring
  rw [h2, ← Nat.mul_add_lt_is_or (show b < 2 ^ 5 by omega) (r * 64 + g)]
  ring

/-- The fade, written over the extracted fields. -/
lemma fadeColor_eq (c : Nat) :
    fadeColor c = (if 2 < chanR c then chanR c - 2 else 0) * 2048 +
      (if 4 < chanG c then chanG c - 4 else 0) * 32 +
      (if 2 < chanB c then chanB c - 2 else 0) := by
  have hg : (if 4 < chanG c then chanG c - 4 else 0) < 64 := by
    have := chanG_eq c
    split <;> omega
  have hb : (if 2 < chanB c then chanB c - 2 else 0) < 32 := by
    have := chanB_eq c
    split <;> omega
  exact pack565 _ _ _ hg hb

lemma fade_chanR (c : Nat) : chanR (fadeColor c) = chanR c - 2 := by
  have hr := chanR_eq c
  have hg := chanG_eq c
  have hb := chanB_eq c
  rw [fadeColor_eq, chanR_eq]
  split <;> split <;> split <;> omega

lemma fade_chanG (c : Nat) : chanG (fadeColor c) = chanG c - 4 := by
  have hr := chanR_eq c
  have hg := chanG_eq c
  have hb := chanB_eq c
  rw [fadeColor_eq, chanG_eq]
  split <;> split <;> split <;> omega

lemma fade_chanB (c : Nat) : chanB (fadeColor c) = chanB c - 2 := by
  have hr := chanR_eq c
  have hg := chanG_eq c
  have hb := chanB_eq c
  rw [fadeColor_eq, chanB_eq]
  split <;> split <;> split <;> omega

lemma fadeColor_lt (c : Nat) : fadeColor c < 65536 := by
  have hr := chanR_eq c
  have hg := chanG_eq c
  have hb := chanB_eq c
  rw [fadeColor_eq]
  split <;> split <;> split <;> omega

lemma chan_zero (c : Nat) (h : c < 65536) (h1 : chanR c = 0)
    (h2 : chanG c = 0) (h3 : chanB c = 0) : c = 0 := by
  rw [chanR_eq] at h1
  rw [chanG_eq] at h2
  rw [chanB_eq] at h3
  omega

lemma fade_iterate (k : Nat) : ∀ c, c < 65536 →
    fadeColor^[k] c < 65536 ∧
    chanR (fadeColor^[k] c) = chanR c - 2 * k ∧
    chanG (fadeColor^[k] c) = chanG c - 4 * k ∧
    chanB (fadeColor^[k] c) = chanB c - 2 * k := by
  induction k with
  | zero => intro c hc; simpa using hc
  | succ k ih =>
    intro c hc
    rw [Function.iterate_succ_apply]
    obtain ⟨h1, h2, h3, h4⟩ := ih (fadeColor c) (fadeColor_lt c)
    refine ⟨h1, ?_, ?_, ?_⟩
    · rw [h2, fade_chanR]; omega
    · rw [h3, fade_chanG]; omega
    · rw [h4, fade_chanB]; omega

lemma fade_sixteen (c : Nat) (hc : c < 65536) : fadeColor^[16] c = 0 := by
  obtain ⟨h1, h2, h3, h4⟩ := fade_iterate 16 c hc
  have hr := chanR_eq c
  have hg := chanG_eq c
  have hb := chanB_eq c
  refine chan_zero _ h1 ?_ ?_ ?_
  · rw [h2]; omega
  · rw [h3]; omega
  · rw [h4]; omega

/-- C8: a cell outside every active trail holding a nonzero 16-bit color is
faded: each nonzero RGB565 channel strictly decreases (red and blue by 2,
green by 4, clamped at zero), after 16 such ticks every channel — hence the
packed color — is zero, and a zero cell stays zero until a trail rewrites
it. -/
theorem trail_fade (trailColor c : Nat) (hc : c < 65536) (hnz : c ≠ 0) :
    cellStep false trailColor c = fadeColor c ∧
    chanR (fadeColor c) = chanR c - 2 ∧
    chanG (fadeColor c) = chanG c - 4 ∧
    chanB (fadeColor c) = chanB c - 2 ∧
    (chanR c ≠ 0 → chanR (fadeColor c) < chanR c) ∧
    (chanG c ≠ 0 → chanG (fadeColor c) < chanG c) ∧
    (chanB c ≠ 0 → chanB (fadeColor c) < chanB c) ∧
    fadeColor^[16] c = 0 ∧
    cellStep false trailColor 0 = 0 := by
  refine ⟨by simp [cellStep, hnz], fade_chanR c, fade_chanG c, fade_chanB c,
    ?_, ?_, ?_, fade_sixteen c hc, rfl⟩
  · intro h; rw [fade_chanR]; omega
  · intro h; rw [fade_chanG]; omega
  · intro h; rw [fade_chanB]; omega

/-- C8, witness: the fade at the full-white head color 0xFFFF. -/
theorem trail_fade_w :
    cellStep false 0 65535 = fadeColor 65535 ∧
    chanR (fadeColor 65535) < chanR 65535 ∧
    fadeColor^[16] 65535 = 0 :=
  ⟨(trail_fade 0 65535 (by decide) (by decide)).1,
   (trail_fade 0 65535 (by decide) (by decide)).2.2.2.2.1 (by decide),
   (trail_fade 0 65535 (by decide) (by decide)).2.2.2.2.2.2.2.1⟩

end Tab5
